import Mathlib

/-!
Verification of the apko image-configuration model and SBOM pipeline.

Shallow embedding of the Go sources:
- pkg/build/types/image_configuration.go : the configuration model, the
  VCS URL prober (ProbeVCSUrl), the validator (Validate +
  ValidateServiceBundle) and the summarizer (Summarize).
- the build package file holding GenerateSBOM.

Go structures become Lean structures; machine strings are Lean String,
integer identifiers (UID/GID) are Nat; in-place mutation of the
receiver becomes explicit value passing (a function from the old value
to the new value, paired with an optional error where the Go method
returns error); external collaborators (the git library, the net/url
parser, the layer/digest/tag/package/generation collaborators of the
SBOM step) become explicit environment records of oracle functions, so
that every theorem quantifies over their possible behaviours.
-/

namespace Apko

/-- A declared user account: {username, UID, GID}. -/
structure User where
  userName : String
  uid : Nat
  gid : Nat
deriving DecidableEq

/-- A declared group: {group name, GID, members}. -/
structure Group where
  groupName : String
  gid : Nat
  members : List String
deriving DecidableEq

/-- The accounts block: run-as identity, users, groups. -/
structure Accounts where
  runAs : String := ""
  users : List User := []
  groups : List Group := []
deriving DecidableEq

/-- The contents block: repositories, keyring, packages. -/
structure Contents where
  repositories : List String := []
  keyring : List String := []
  packages : List String := []
deriving DecidableEq

/-- The entrypoint block: type tag, command, services, shell fragment. -/
structure Entrypoint where
  type : String := ""
  command : String := ""
  services : List String := []
  shellFragment : String := ""
deriving DecidableEq

/-- The OS-release block: ID, Name, PrettyName, VersionID, HomeURL. -/
structure OSRelease where
  id : String := ""
  name : String := ""
  prettyName : String := ""
  versionID : String := ""
  homeURL : String := ""
deriving DecidableEq

/-- The root ImageConfiguration entity. -/
structure ImageConfiguration where
  contents : Contents := {}
  entrypoint : Entrypoint := {}
  cmd : String := ""
  accounts : Accounts := {}
  osRelease : OSRelease := {}
  vcsUrl : String := ""
deriving DecidableEq

/-- The errors Validate can return (fmt.Errorf values in Go), tagged by
which check produced them and carrying the offending entity. -/
inductive ConfigurationError where
  | userNoUserName (u : User)
  | userHasUIDZero (u : User)
  | groupNoGroupName (g : Group)
  | groupHasGIDZero (g : Group)
deriving DecidableEq

/-- The user the error message embeds, when it is a user error. -/
def ConfigurationError.aboutUser : ConfigurationError → Option User
  | .userNoUserName u => some u
  | .userHasUIDZero u => some u
  | _ => none

/-- Body of the user loop in Validate: the first failing check for a
single user, if any (empty username is checked before UID 0). -/
def userViolation (u : User) : Option ConfigurationError :=
  if u.userName = "" then some (.userNoUserName u)
  else if u.uid = 0 then some (.userHasUIDZero u)
  else none

/-- The user loop of Validate: returns the error of the first violating
user in declaration order, or none. -/
def checkUsers : List User → Option ConfigurationError
  | [] => none
  | u :: us =>
    match userViolation u with
    | some e => some e
    | none => checkUsers us

/-- Body of the group loop in Validate (empty name before GID 0). -/
def groupViolation (g : Group) : Option ConfigurationError :=
  if g.groupName = "" then some (.groupNoGroupName g)
  else if g.gid = 0 then some (.groupHasGIDZero g)
  else none

/-- The group loop of Validate. -/
def checkGroups : List Group → Option ConfigurationError
  | [] => none
  | g :: gs =>
    match groupViolation g with
    | some e => some e
    | none => checkGroups gs

/-- ValidateServiceBundle: unconditionally overwrites the entrypoint
command with the fixed supervisor invocation and appends the fixed
supervisor package name. The Go method always returns a nil error. -/
def validateServiceBundle (ic : ImageConfiguration) : ImageConfiguration :=
  { ic with
    entrypoint := { ic.entrypoint with command := "/bin/s6-svscan /sv" },
    contents := { ic.contents with packages := ic.contents.packages ++ ["s6"] } }

/-- The OSRelease defaulting tail of Validate: four sequential if
statements; note the second sets both Name and PrettyName when Name is
empty. -/
def applyOSReleaseDefaults (osr : OSRelease) : OSRelease :=
  let osr1 := if osr.id = "" then { osr with id := "alpine" } else osr
  let osr2 := if osr1.name = "" then
    { osr1 with name := "apko-generated image", prettyName := "apko-generated image" }
    else osr1
  let osr3 := if osr2.versionID = "" then { osr2 with versionID := "3.16" } else osr2
  if osr3.homeURL = "" then
    { osr3 with homeURL := "https://github.com/chainguard-dev/apko" }
  else osr3

/-- Validate: the Go method mutates the receiver and returns an error; we
return the final state of the receiver together with the optional
error. Order: service-bundle specialization, user loop, group loop,
OSRelease defaults. -/
def validate (ic : ImageConfiguration) : ImageConfiguration × Option ConfigurationError :=
  let ic1 := if ic.entrypoint.type = "service-bundle" then validateServiceBundle ic else ic
  match checkUsers ic1.accounts.users with
  | some e => (ic1, some e)
  | none =>
    match checkGroups ic1.accounts.groups with
    | some e => (ic1, some e)
    | none => ({ ic1 with osRelease := applyOSReleaseDefaults ic1.osRelease }, none)

/-! ## VCS URL prober

ProbeVCSUrl consults external collaborators: filepath.Dir, the git
library (PlainOpen + Remote("origin"), of which only the first URL of
the remote configuration is read), and the net/url parser composed with
the String method of the parsed URL. These are modelled as an
environment of oracle functions; the control flow of the Go function is
embedded exactly. -/

/-- Environment of external collaborators consulted by ProbeVCSUrl.
`dir` is filepath.Dir; `originURL` is PlainOpen on the directory
followed by Remote("origin") followed by taking URLs[0], with none for
a failure of either git step; `parseToString` is url.Parse followed by
the String method of the result, with none when url.Parse errors. -/
structure VCSEnv where
  dir : String → String
  originURL : String → Option String
  parseToString : String → Option String

/-- strings.Replace(s, ":", "/", 1): replace the first colon, if any,
with a slash. -/
def replaceFirstColonAux : List Char → List Char
  | [] => []
  | c :: cs => if c = ':' then '/' :: cs else c :: replaceFirstColonAux cs

/-- strings.Replace(s, ":", "/", 1) on a String. -/
def replaceFirstColon (s : String) : String :=
  ⟨replaceFirstColonAux s.data⟩

/-- ProbeVCSUrl: mutates only VCSUrl, and only when a remote URL is
found and normalized; every failure path returns the configuration
unchanged. The function is total: no failure escalates. -/
def probeVCSUrl (env : VCSEnv) (ic : ImageConfiguration)
    (imageConfigPath : String) : ImageConfiguration :=
  let parentDir := env.dir imageConfigPath
  if parentDir = "" then ic
  else
    match env.originURL parentDir with
    | none => ic
    | some remoteURL =>
      match env.parseToString remoteURL with
      | some s => { ic with vcsUrl := s }
      | none =>
        -- URL is most likely a git+ssh:// type URL: turn
        -- user@host:repo into git+ssh://user@host/repo and re-parse.
        let remoteURL2 := "git+ssh://" ++ replaceFirstColon remoteURL
        match env.parseToString remoteURL2 with
        | some s => { ic with vcsUrl := s }
        | none => ic

/-! ## SBOM orchestrator

GenerateSBOM drives external collaborators: the tarball-to-layer
constructor, the digest method of the layer, the tag parser, the
package-index reader and the SBOM generator. Each is an oracle in an
environment record; an abstract layer handle is a String. To state
which pipeline stages ran, the embedding returns the ordered list of
stages performed together with the optional error. -/

/-- ImageInfo options assembled for the SBOM generator. -/
structure ImageInfo where
  tag : String := ""
  name : String := ""
  arch : String := ""
  digest : String := ""
deriving DecidableEq

/-- Options handed to the SBOM generator. -/
structure SBOMOptions where
  imageInfo : ImageInfo := {}
  outputDir : String := ""
  packages : List String := []
  formats : List String := []
deriving DecidableEq

/-- The build context fields GenerateSBOM reads. -/
structure SBOMContext where
  workDir : String := ""
  sbomFormats : List String := []
  tarballPath : String := ""
  tags : List String := []
  arch : String := ""
  sbomPath : String := ""
deriving DecidableEq

/-- External collaborators of GenerateSBOM. The layer handle and the
digest are abstract strings; each oracle either succeeds or fails with
a message. -/
structure SBOMEnv where
  layerFromFile : String → Except String String
  layerDigest : String → Except String String
  parseTag : String → Except String (String × String)
  readPackageIndex : String → Except String (List String)
  generate : SBOMOptions → Except String Unit

/-- The pipeline stages of GenerateSBOM, in the order the code runs
them. -/
inductive SBOMStep where
  | layerFromFile
  | layerDigest
  | tagParse
  | readPackageIndex
  | generate
deriving DecidableEq

/-- The errors GenerateSBOM wraps and returns, tagged by the stage that
failed. -/
inductive SBOMError where
  | layerRead (msg : String)
  | digestError (msg : String)
  | tagParseError (tag : String) (msg : String)
  | packageIndexError (msg : String)
  | generationError (msg : String)
deriving DecidableEq

/-- The stage an error identifies. -/
def SBOMError.stage : SBOMError → SBOMStep
  | .layerRead _ => .layerFromFile
  | .digestError _ => .layerDigest
  | .tagParseError _ _ => .tagParse
  | .packageIndexError _ => .readPackageIndex
  | .generationError _ => .generate

/-- The generation options GenerateSBOM assembles after reading the
package index: image info (tag and name from the parsed tag when
present) completed with the context architecture and the layer digest,
the output directory, the package list and the requested formats. -/
def sbomOptions (bc : SBOMContext) (digest : String) (info : ImageInfo)
    (packages : List String) : SBOMOptions :=
  { imageInfo := { info with arch := bc.arch, digest := digest },
    outputDir := bc.sbomPath,
    packages := packages,
    formats := bc.sbomFormats }

/-- Tail of GenerateSBOM after the optional tag parse: read the package
index, assemble the options and invoke generation. `trace` is the list
of stages already performed. -/
def generateSBOMRest (env : SBOMEnv) (bc : SBOMContext) (digest : String)
    (info : ImageInfo) (trace : List SBOMStep) :
    List SBOMStep × Option SBOMError :=
  match env.readPackageIndex bc.workDir with
  | .error m => (trace ++ [.readPackageIndex], some (.packageIndexError m))
  | .ok packages =>
    match env.generate (sbomOptions bc digest info packages) with
    | .error m => (trace ++ [.readPackageIndex, .generate], some (.generationError m))
    | .ok _ => (trace ++ [.readPackageIndex, .generate], none)

/-- GenerateSBOM: skip when no formats are requested; otherwise layer
construction, digest, optional first-tag parse, package-index read,
generation, failing fast at the first error. Returns the ordered trace
of stages performed and the optional error. -/
def generateSBOM (env : SBOMEnv) (bc : SBOMContext) :
    List SBOMStep × Option SBOMError :=
  if bc.sbomFormats.length = 0 then
    ([], none)
  else
    match env.layerFromFile bc.tarballPath with
    | .error m => ([.layerFromFile], some (.layerRead m))
    | .ok v1Layer =>
      match env.layerDigest v1Layer with
      | .error m => ([.layerFromFile, .layerDigest], some (.digestError m))
      | .ok digest =>
        match bc.tags.head? with
        | some t =>
          match env.parseTag t with
          | .error m =>
            ([.layerFromFile, .layerDigest, .tagParse], some (.tagParseError t m))
          | .ok (tagStr, nameStr) =>
            generateSBOMRest env bc digest { tag := tagStr, name := nameStr }
              [.layerFromFile, .layerDigest, .tagParse]
        | none => generateSBOMRest env bc digest {} [.layerFromFile, .layerDigest]

/-! ## Summarizer

Summarize emits printf lines on a logger. Each emitted line becomes a
constructor of `LogLine` carrying the data it formats, so the embedding
records exactly which lines are printed, in order, with which values. -/

/-- One log line of Summarize, as the data it prints. -/
inductive LogLine where
  | header
  | contentsHeader
  | repositories (rs : List String)
  | keyring (ks : List String)
  | packages (ps : List String)
  | entrypointHeader
  | entrypointType (t : String)
  | entrypointCommand (c : String)
  | entrypointService (ss : List String)
  | entrypointShellFragment (f : String)
  | cmdLine (c : String)
  | accountsHeader
  | accountsRunAs (r : String)
  | usersHeader
  | userLine (uid : Nat) (name : String) (gid : Nat)
  | groupsHeader
  | groupLine (gid : Nat) (name : String) (members : List String)
deriving DecidableEq

/-- Summarize: always the contents block; the entrypoint block only when
type, command or services is non-empty (the shell fragment is printed
inside the block but does not trigger it); the cmd line only when Cmd
is non-empty; the accounts block only when run-as, users or groups is
non-empty. -/
def summarize (ic : ImageConfiguration) : List LogLine :=
  [LogLine.header, LogLine.contentsHeader,
   LogLine.repositories ic.contents.repositories,
   LogLine.keyring ic.contents.keyring,
   LogLine.packages ic.contents.packages]
  ++ (if ic.entrypoint.type ≠ "" ∨ ic.entrypoint.command ≠ ""
        ∨ ic.entrypoint.services.length ≠ 0 then
      [LogLine.entrypointHeader,
       LogLine.entrypointType ic.entrypoint.type,
       LogLine.entrypointCommand ic.entrypoint.command,
       LogLine.entrypointService ic.entrypoint.services,
       LogLine.entrypointShellFragment ic.entrypoint.shellFragment]
      else [])
  ++ (if ic.cmd ≠ "" then [LogLine.cmdLine ic.cmd] else [])
  ++ (if ic.accounts.runAs ≠ "" ∨ ic.accounts.users.length ≠ 0
        ∨ ic.accounts.groups.length ≠ 0 then
      [LogLine.accountsHeader,
       LogLine.accountsRunAs ic.accounts.runAs,
       LogLine.usersHeader]
      ++ ic.accounts.users.map (fun u => LogLine.userLine u.uid u.userName u.gid)
      ++ [LogLine.groupsHeader]
      ++ ic.accounts.groups.map (fun g => LogLine.groupLine g.gid g.groupName g.members)
      else [])

/-! ## Helper lemmas about the validator -/

/-- The service-bundle specialization does not touch the accounts. -/
lemma validateServiceBundle_accounts (ic : ImageConfiguration) :
    (validateServiceBundle ic).accounts = ic.accounts := rfl

/-- The service-bundle specialization does not touch the OS release. -/
lemma validateServiceBundle_osRelease (ic : ImageConfiguration) :
    (validateServiceBundle ic).osRelease = ic.osRelease := rfl

/-- The error component of validate is the first user violation, else
the first group violation, else none; the specialization step cannot
fail and does not change the accounts. -/
lemma validate_snd (ic : ImageConfiguration) :
    (validate ic).2 =
      (match checkUsers ic.accounts.users with
       | some e => some e
       | none => checkGroups ic.accounts.groups) := by
  unfold validate
  by_cases h : ic.entrypoint.type = "service-bundle" <;>
    simp only [h, if_true, if_false, validateServiceBundle_accounts] <;>
    cases checkUsers ic.accounts.users <;>
    cases checkGroups ic.accounts.groups <;> rfl

/-- On a validation error the final state is the input with only the
service-bundle specialization applied. -/
lemma validate_fst_of_err (ic : ImageConfiguration)
    (h : (validate ic).2.isSome) :
    (validate ic).1 =
      (if ic.entrypoint.type = "service-bundle" then validateServiceBundle ic
       else ic) := by
  unfold validate at h ⊢
  by_cases ht : ic.entrypoint.type = "service-bundle" <;>
    simp only [ht, if_true, if_false, validateServiceBundle_accounts] at h ⊢ <;>
    rcases hu : checkUsers ic.accounts.users with _ | e <;>
    rcases hg : checkGroups ic.accounts.groups with _ | e' <;>
    simp only [hu, hg] at h ⊢ <;> simp_all

/-- On success the final state is the specialized input with the
OS-release defaults applied (the specialization preserves the
OS-release fields). -/
lemma validate_fst_of_ok (ic : ImageConfiguration)
    (h : (validate ic).2 = none) :
    (validate ic).1 =
      { (if ic.entrypoint.type = "service-bundle" then validateServiceBundle ic
         else ic) with osRelease := applyOSReleaseDefaults ic.osRelease } := by
  unfold validate at h ⊢
  by_cases ht : ic.entrypoint.type = "service-bundle" <;>
    simp only [ht, if_true, if_false, validateServiceBundle_accounts] at h ⊢ <;>
    rcases hu : checkUsers ic.accounts.users with _ | e <;>
    rcases hg : checkGroups ic.accounts.groups with _ | e' <;>
    simp only [hu, hg] at h ⊢ <;> simp_all [validateServiceBundle]

/-- checkUsers finds the first violating user: the list splits into a
clean prefix, the violating user and a tail, and the returned error is
that violation of that user. -/
lemma checkUsers_first_violation {us : List User}
    (h : ∃ u ∈ us, u.uid = 0) :
    ∃ pre u post e, us = pre ++ u :: post ∧
      (∀ v ∈ pre, userViolation v = none) ∧
      userViolation u = some e ∧
      checkUsers us = some e := by
  induction us with
  | nil => simp at h
  | cons a us ih =>
    cases hv : userViolation a with
    | some e =>
      exact ⟨[], a, us, e, rfl, by simp, hv, by simp [checkUsers, hv]⟩
    | none =>
      have h' : ∃ u ∈ us, u.uid = 0 := by
        rcases h with ⟨u, hu, hz⟩
        rcases List.mem_cons.mp hu with rfl | hu'
        · exfalso
          unfold userViolation at hv
          by_cases hn : u.userName = ""
          · rw [if_pos hn] at hv; exact absurd hv (by simp)
          · rw [if_neg hn, if_pos hz] at hv; exact absurd hv (by simp)
        · exact ⟨u, hu', hz⟩
      rcases ih h' with ⟨pre, u, post, e, hsplit, hpre, hviol, hchk⟩
      refine ⟨a :: pre, u, post, e, by rw [hsplit]; rfl, ?_, hviol, ?_⟩
      · intro v hv'
        rcases List.mem_cons.mp hv' with rfl | hv''
        · exact hv
        · exact hpre v hv''
      · simp [checkUsers, hv, hchk]

/-! ## Concrete configurations used as counterexamples and witnesses -/

/-- First user has an empty name (the first violation), second user has
UID 0. -/
def cfgUidZeroShadowed : ImageConfiguration :=
  { accounts := { users := [⟨"", 1, 1⟩, ⟨"rootlike", 0, 0⟩] } }

/-- A valid user followed by a named user with UID 0. -/
def cfgUidZeroSecond : ImageConfiguration :=
  { accounts := { users := [⟨"app", 1000, 1000⟩, ⟨"admin", 0, 0⟩] } }

/-- A service-bundle configuration that already lists the supervisor
package. -/
def cfgServiceBundle : ImageConfiguration :=
  { entrypoint := { type := "service-bundle" },
    contents := { packages := ["s6"] } }

/-- Empty Name but non-empty PrettyName. -/
def cfgPrettyName : ImageConfiguration :=
  { osRelease := { prettyName := "custom" } }

/-- Partially filled OS release. -/
def cfgOSRelease : ImageConfiguration :=
  { osRelease := { id := "wolfi", versionID := "20" } }

/-- Service-bundle configuration whose only user is invalid (UID 0). -/
def cfgBundleBadUser : ImageConfiguration :=
  { entrypoint := { type := "service-bundle" },
    contents := { packages := ["busybox"] },
    accounts := { users := [⟨"admin", 0, 0⟩] },
    osRelease := { name := "keepme" } }

/-! ## C1 -/

/-- C1 counterexample: a configuration whose second user has UID 0 but
whose first user has an empty user name. Validate returns the
empty-user-name error of the first user, so the returned error does not
reference the UID-0 user, refuting the claim that the error references
that user regardless of its position. -/
theorem validate_uid0_not_referenced_counterexample :
    (∃ u ∈ cfgUidZeroShadowed.accounts.users, u.uid = 0) ∧
    (validate cfgUidZeroShadowed).2 =
      some (ConfigurationError.userNoUserName ⟨"", 1, 1⟩) ∧
    (∀ u ∈ cfgUidZeroShadowed.accounts.users, u.uid = 0 →
      (ConfigurationError.userNoUserName ⟨"", 1, 1⟩).aboutUser ≠ some u) := by
  decide

/-- C1 (amended): whenever some user has UID 0, Validate returns a
ConfigurationError; the error reports the first user violation in
declaration order (fail-fast): the user list splits into a clean
prefix, a violating user and a tail, and the error is exactly that
violation of that user; in particular, when the first violating user
has a non-empty name, the error is the UID-zero rejection referencing
that user, regardless of its position; UID 0 is always a hard error,
never a warning. -/
theorem validate_uid0_first_violation (ic : ImageConfiguration)
    (h : ∃ u ∈ ic.accounts.users, u.uid = 0) :
    ∃ pre u post e, ic.accounts.users = pre ++ u :: post ∧
      (∀ v ∈ pre, userViolation v = none) ∧
      userViolation u = some e ∧
      (validate ic).2 = some e ∧
      (u.userName ≠ "" → u.uid = 0 ∧ e = ConfigurationError.userHasUIDZero u) := by
  rcases checkUsers_first_violation h with ⟨pre, u, post, e, hs, hp, hv, hc⟩
  refine ⟨pre, u, post, e, hs, hp, hv, ?_, ?_⟩
  · rw [validate_snd, hc]
  · intro hn
    unfold userViolation at hv
    rw [if_neg hn] at hv
    by_cases hz : u.uid = 0
    · rw [if_pos hz] at hv
      exact ⟨hz, (Option.some.inj hv).symm⟩
    · rw [if_neg hz] at hv
      exact absurd hv (by simp)

/-- C1 witness: the amended theorem applied to a concrete configuration
whose second user is named and has UID 0; there the returned error is
the UID-zero rejection referencing that user. -/
theorem validate_uid0_first_violation_witness :
    (∃ u ∈ cfgUidZeroSecond.accounts.users, u.uid = 0) ∧
    (∃ pre u post e, cfgUidZeroSecond.accounts.users = pre ++ u :: post ∧
      (∀ v ∈ pre, userViolation v = none) ∧
      userViolation u = some e ∧
      (validate cfgUidZeroSecond).2 = some e ∧
      (u.userName ≠ "" → u.uid = 0 ∧ e = ConfigurationError.userHasUIDZero u)) :=
  ⟨by decide, validate_uid0_first_violation cfgUidZeroSecond (by decide)⟩

/-! ## C2 -/

/-- C2: for a service-bundle configuration that validates successfully,
the final entrypoint command is the fixed supervisor invocation, the
supervisor package s6 is in the package list, and the package list is
exactly the input list with s6 appended once at the end — so the s6
count rises by one even when s6 was already present (no presence
check, a duplicate may result). -/
theorem validate_service_bundle_spec (ic : ImageConfiguration)
    (ht : ic.entrypoint.type = "service-bundle")
    (hok : (validate ic).2 = none) :
    (validate ic).1.entrypoint.command = "/bin/s6-svscan /sv" ∧
    "s6" ∈ (validate ic).1.contents.packages ∧
    (validate ic).1.contents.packages = ic.contents.packages ++ ["s6"] ∧
    ((validate ic).1.contents.packages).count "s6" =
      ic.contents.packages.count "s6" + 1 := by
  have hfst := validate_fst_of_ok ic hok
  rw [hfst, if_pos ht]
  refine ⟨rfl, ?_, rfl, ?_⟩
  · simp [validateServiceBundle]
  · simp [validateServiceBundle, List.count_append]

/-- C2 witness: a service-bundle configuration that already contains s6
validates successfully and ends with the supervisor command and a
duplicated s6 entry. -/
theorem validate_service_bundle_spec_witness :
    cfgServiceBundle.entrypoint.type = "service-bundle" ∧
    (validate cfgServiceBundle).2 = none ∧
    ((validate cfgServiceBundle).1.entrypoint.command = "/bin/s6-svscan /sv" ∧
     "s6" ∈ (validate cfgServiceBundle).1.contents.packages ∧
     (validate cfgServiceBundle).1.contents.packages =
       cfgServiceBundle.contents.packages ++ ["s6"] ∧
     ((validate cfgServiceBundle).1.contents.packages).count "s6" =
       cfgServiceBundle.contents.packages.count "s6" + 1) :=
  ⟨rfl, by decide, validate_service_bundle_spec cfgServiceBundle rfl (by decide)⟩

/-! ## C3 -/

/-- C3 counterexample: a configuration with empty Name and non-empty
PrettyName "custom" validates successfully, yet PrettyName is
overwritten to the fallback — a non-empty field is overwritten, so the
fields are not defaulted independently and only when empty. -/
theorem osrelease_prettyName_overwritten_counterexample :
    (validate cfgPrettyName).2 = none ∧
    cfgPrettyName.osRelease.prettyName = "custom" ∧
    ("custom" : String) ≠ "" ∧
    (validate cfgPrettyName).1.osRelease.prettyName = "apko-generated image" := by
  decide

/-- C3 (amended): on successful validation, ID, Name, VersionID and
HomeURL are each defaulted independently and only if empty, to the
fixed fallbacks; PrettyName however is set to the fallback exactly when
Name is empty (together with Name), so a non-empty PrettyName is
overwritten when Name is empty, and an empty PrettyName is kept when
Name is non-empty. -/
theorem validate_osrelease_defaults (ic : ImageConfiguration)
    (hok : (validate ic).2 = none) :
    ((validate ic).1.osRelease.id =
      if ic.osRelease.id = "" then "alpine" else ic.osRelease.id) ∧
    ((validate ic).1.osRelease.name =
      if ic.osRelease.name = "" then "apko-generated image" else ic.osRelease.name) ∧
    ((validate ic).1.osRelease.prettyName =
      if ic.osRelease.name = "" then "apko-generated image" else ic.osRelease.prettyName) ∧
    ((validate ic).1.osRelease.versionID =
      if ic.osRelease.versionID = "" then "3.16" else ic.osRelease.versionID) ∧
    ((validate ic).1.osRelease.homeURL =
      if ic.osRelease.homeURL = "" then "https://github.com/chainguard-dev/apko"
      else ic.osRelease.homeURL) := by
  have hos : (validate ic).1.osRelease = applyOSReleaseDefaults ic.osRelease := by
    rw [validate_fst_of_ok ic hok]
  rw [hos]
  unfold applyOSReleaseDefaults
  by_cases h1 : ic.osRelease.id = "" <;>
  by_cases h2 : ic.osRelease.name = "" <;>
  by_cases h3 : ic.osRelease.versionID = "" <;>
  by_cases h4 : ic.osRelease.homeURL = "" <;>
  simp [h1, h2, h3, h4]

/-- C3 witness: the amended theorem applied to a configuration with ID
and VersionID set and the other fields empty. -/
theorem validate_osrelease_defaults_witness :
    (validate cfgOSRelease).2 = none ∧
    ((validate cfgOSRelease).1.osRelease.id =
      if cfgOSRelease.osRelease.id = "" then "alpine" else cfgOSRelease.osRelease.id) ∧
    ((validate cfgOSRelease).1.osRelease.name =
      if cfgOSRelease.osRelease.name = "" then "apko-generated image"
      else cfgOSRelease.osRelease.name) ∧
    ((validate cfgOSRelease).1.osRelease.prettyName =
      if cfgOSRelease.osRelease.name = "" then "apko-generated image"
      else cfgOSRelease.osRelease.prettyName) ∧
    ((validate cfgOSRelease).1.osRelease.versionID =
      if cfgOSRelease.osRelease.versionID = "" then "3.16"
      else cfgOSRelease.osRelease.versionID) ∧
    ((validate cfgOSRelease).1.osRelease.homeURL =
      if cfgOSRelease.osRelease.homeURL = "" then "https://github.com/chainguard-dev/apko"
      else cfgOSRelease.osRelease.homeURL) :=
  ⟨by decide, validate_osrelease_defaults cfgOSRelease (by decide)⟩

/-! ## C4 -/

/-- C4: the OS-release defaulting step of Validate is idempotent:
applying it twice yields the same fields as applying it once. -/
theorem applyOSReleaseDefaults_idempotent (osr : OSRelease) :
    applyOSReleaseDefaults (applyOSReleaseDefaults osr) = applyOSReleaseDefaults osr := by
  unfold applyOSReleaseDefaults
  by_cases h1 : osr.id = "" <;>
  by_cases h2 : osr.name = "" <;>
  by_cases h3 : osr.versionID = "" <;>
  by_cases h4 : osr.homeURL = "" <;>
  simp [h1, h2, h3, h4]

/-! ## C10 -/

/-- C10: Validate is not atomic on error: when it returns an error, the
OS-release fields are exactly those of the input (defaults only run
after all user and group checks pass), but for a service-bundle
configuration the entrypoint command and the package list have already
been mutated by the specialization before the failing check ran. -/
theorem validate_error_not_atomic (ic : ImageConfiguration)
    (herr : (validate ic).2.isSome) :
    (validate ic).1.osRelease = ic.osRelease ∧
    (ic.entrypoint.type = "service-bundle" →
      (validate ic).1.entrypoint.command = "/bin/s6-svscan /sv" ∧
      (validate ic).1.contents.packages = ic.contents.packages ++ ["s6"]) := by
  rw [validate_fst_of_err ic herr]
  constructor
  · split <;> rfl
  · intro ht
    rw [if_pos ht]
    exact ⟨rfl, rfl⟩

/-- C10 witness: a service-bundle configuration with a UID-0 user fails
validation with its OS release untouched while command and packages are
already rewritten. -/
theorem validate_error_not_atomic_witness :
    (validate cfgBundleBadUser).2.isSome ∧
    ((validate cfgBundleBadUser).1.osRelease = cfgBundleBadUser.osRelease ∧
     (cfgBundleBadUser.entrypoint.type = "service-bundle" →
       (validate cfgBundleBadUser).1.entrypoint.command = "/bin/s6-svscan /sv" ∧
       (validate cfgBundleBadUser).1.contents.packages =
         cfgBundleBadUser.contents.packages ++ ["s6"])) :=
  ⟨by decide, validate_error_not_atomic cfgBundleBadUser (by decide)⟩

/-! ## C5 and C6: the VCS prober -/

/-- Environment with no enclosing repository: every git lookup fails. -/
def envNoRepo : VCSEnv :=
  { dir := fun _ => ".",
    originURL := fun _ => none,
    parseToString := fun _ => none }

/-- Environment behaving like the Go collaborators on an SSH-shorthand
origin remote: the parent directory holds a repository whose origin
remote URL is the shorthand, generic URL parsing fails on the
shorthand, and parsing round-trips every other string. -/
def envSSHRemote : VCSEnv :=
  { dir := fun _ => "repo",
    originURL := fun d => if d = "repo" then some "git@host:org/repo.git" else none,
    parseToString := fun s => if s = "git@host:org/repo.git" then none else some s }

/-- C5: ProbeVCSUrl never escalates a failure: whenever the parent
directory is empty, or the repository or origin remote cannot be read,
or both URL parses fail, the configuration is returned unchanged — in
particular an empty VCSUrl stays empty. The embedding is a total
function, so every such call returns normally. -/
theorem probeVCSUrl_failure_unchanged (env : VCSEnv) (ic : ImageConfiguration)
    (path : String)
    (h : env.dir path = "" ∨
         env.originURL (env.dir path) = none ∨
         (∀ u, env.originURL (env.dir path) = some u →
           env.parseToString u = none ∧
           env.parseToString ("git+ssh://" ++ replaceFirstColon u) = none)) :
    probeVCSUrl env ic path = ic ∧
    (ic.vcsUrl = "" → (probeVCSUrl env ic path).vcsUrl = "") := by
  have hmain : probeVCSUrl env ic path = ic := by
    unfold probeVCSUrl
    by_cases hd : env.dir path = ""
    · simp [hd]
    · rcases h with h | h | h
      · exact absurd h hd
      · simp [hd, h]
      · rcases ho : env.originURL (env.dir path) with _ | u
        · simp [hd, ho]
        · rcases h u ho with ⟨hp1, hp2⟩
          simp [hd, ho, hp1, hp2]
  exact ⟨hmain, fun hv => by rw [hmain]; exact hv⟩

/-- C5 witness: probing with no enclosing repository leaves the empty
configuration unchanged and its VCSUrl empty. -/
theorem probeVCSUrl_failure_unchanged_witness :
    probeVCSUrl envNoRepo {} "images/apko.yaml" = {} ∧
    (({} : ImageConfiguration).vcsUrl = "" →
      (probeVCSUrl envNoRepo {} "images/apko.yaml").vcsUrl = "") :=
  probeVCSUrl_failure_unchanged envNoRepo {} "images/apko.yaml" (Or.inr (Or.inl rfl))

/-- C6: when the origin remote URL fails generic parsing, ProbeVCSUrl
rewrites it by substituting the first colon with a slash and prefixing
the git+ssh scheme, and re-parses the rewritten URL; on the shorthand
remote git@host:org/repo.git the rewritten URL is
git+ssh://git@host/org/repo.git, and when re-parsing round-trips it,
that is exactly what is stored into VCSUrl. -/
theorem probeVCSUrl_ssh_shorthand (env : VCSEnv) (ic : ImageConfiguration)
    (path u : String)
    (hd : env.dir path ≠ "")
    (ho : env.originURL (env.dir path) = some u)
    (hp : env.parseToString u = none) :
    (probeVCSUrl env ic path =
      (match env.parseToString ("git+ssh://" ++ replaceFirstColon u) with
       | some s => { ic with vcsUrl := s }
       | none => ic)) ∧
    ("git+ssh://" ++ replaceFirstColon "git@host:org/repo.git" =
      "git+ssh://git@host/org/repo.git") ∧
    (u = "git@host:org/repo.git" →
      env.parseToString "git+ssh://git@host/org/repo.git" =
        some "git+ssh://git@host/org/repo.git" →
      (probeVCSUrl env ic path).vcsUrl = "git+ssh://git@host/org/repo.git") := by
  have hrw : ("git+ssh://" ++ replaceFirstColon "git@host:org/repo.git" =
      "git+ssh://git@host/org/repo.git") := by decide
  have hmain : probeVCSUrl env ic path =
      (match env.parseToString ("git+ssh://" ++ replaceFirstColon u) with
       | some s => { ic with vcsUrl := s }
       | none => ic) := by
    unfold probeVCSUrl
    rw [if_neg hd]
    simp only [ho, hp]
  refine ⟨hmain, hrw, ?_⟩
  intro hu hp2
  subst hu
  rw [hmain, hrw, hp2]

/-- C6 witness: against collaborators behaving like Go on the shorthand
remote, the probe stores the normalized git+ssh URL. -/
theorem probeVCSUrl_ssh_shorthand_witness :
    (probeVCSUrl envSSHRemote {} "repo/apko.yaml").vcsUrl =
      "git+ssh://git@host/org/repo.git" :=
  (probeVCSUrl_ssh_shorthand envSSHRemote {} "repo/apko.yaml"
    "git@host:org/repo.git" (by decide) (by decide) (by decide)).2.2 rfl (by decide)

/-! ## C7 and C8: the SBOM orchestrator -/

/-- The canonical stage order of the SBOM pipeline: layer read, digest,
tag parse (only when tags are configured), package-index read,
generation. -/
def stepOrder (bc : SBOMContext) : List SBOMStep :=
  if bc.tags = [] then
    [.layerFromFile, .layerDigest, .readPackageIndex, .generate]
  else
    [.layerFromFile, .layerDigest, .tagParse, .readPackageIndex, .generate]

/-- An environment whose collaborators all succeed, except that only the
one well-formed tag parses. -/
def envSBOMTrivial : SBOMEnv :=
  { layerFromFile := fun _ => .ok "layer",
    layerDigest := fun _ => .ok "sha256:aaaa",
    parseTag := fun t =>
      if t = "registry.example/img:v1" then .ok ("v1", "registry.example/img:v1")
      else .error "bad tag",
    readPackageIndex := fun _ => .ok ["busybox"],
    generate := fun _ => .ok () }

/-- A context requesting one SBOM format whose only tag is unparsable. -/
def bcBadTag : SBOMContext :=
  { workDir := "/w", sbomFormats := ["spdx"], tarballPath := "/w/layer.tar.gz",
    tags := ["Not A Tag"], arch := "amd64", sbomPath := "/w/sbom" }

/-- The three possible outcomes of the pipeline tail: package-index
failure after performing the read stage, or generation failure or
success after performing both remaining stages. -/
lemma generateSBOMRest_shape (env : SBOMEnv) (bc : SBOMContext)
    (digest : String) (info : ImageInfo) (trace : List SBOMStep) :
    (∃ m, generateSBOMRest env bc digest info trace =
        (trace ++ [.readPackageIndex], some (.packageIndexError m))) ∨
    (∃ m, generateSBOMRest env bc digest info trace =
        (trace ++ [.readPackageIndex, .generate], some (.generationError m))) ∨
    generateSBOMRest env bc digest info trace =
        (trace ++ [.readPackageIndex, .generate], none) := by
  unfold generateSBOMRest
  rcases h3 : env.readPackageIndex bc.workDir with m | packages
  · refine Or.inl ⟨m, ?_⟩
    simp [h3]
  · rcases h4 : env.generate (sbomOptions bc digest info packages) with m | u
    · refine Or.inr (Or.inl ⟨m, ?_⟩)
      simp [h3, h4]
    · refine Or.inr (Or.inr ?_)
      simp [h3, h4]

/-- Exhaustive case analysis of GenerateSBOM when formats are
requested: it fails at the layer read, the digest, or the tag parse,
or reaches the pipeline tail with the trace determined by whether tags
are configured. -/
lemma generateSBOM_outcomes (env : SBOMEnv) (bc : SBOMContext)
    (hf : bc.sbomFormats ≠ []) :
    (∃ m, generateSBOM env bc = ([.layerFromFile], some (.layerRead m))) ∨
    (∃ m, generateSBOM env bc =
        ([.layerFromFile, .layerDigest], some (.digestError m))) ∨
    (∃ t m, bc.tags.head? = some t ∧ generateSBOM env bc =
        ([.layerFromFile, .layerDigest, .tagParse], some (.tagParseError t m))) ∨
    (∃ pre, ((pre = [SBOMStep.layerFromFile, SBOMStep.layerDigest] ∧ bc.tags = []) ∨
        (pre = [SBOMStep.layerFromFile, SBOMStep.layerDigest, SBOMStep.tagParse] ∧
          bc.tags ≠ [])) ∧
      ((∃ m, generateSBOM env bc =
          (pre ++ [.readPackageIndex], some (.packageIndexError m))) ∨
       (∃ m, generateSBOM env bc =
          (pre ++ [.readPackageIndex, .generate], some (.generationError m))) ∨
       generateSBOM env bc = (pre ++ [.readPackageIndex, .generate], none))) := by
  have hlen : ¬ bc.sbomFormats.length = 0 := by simpa using hf
  unfold generateSBOM
  rw [if_neg hlen]
  rcases h1 : env.layerFromFile bc.tarballPath with m | layer
  · simp only [h1]
    exact Or.inl ⟨m, rfl⟩
  · simp only [h1]
    rcases h2 : env.layerDigest layer with m | digest
    · simp only [h2]
      exact Or.inr (Or.inl ⟨m, rfl⟩)
    · simp only [h2]
      rcases ht : bc.tags.head? with _ | t
      · simp only [ht]
        have htl : bc.tags = [] := by
          rcases hq : bc.tags with _ | ⟨a, l⟩
          · rfl
          · rw [hq] at ht
            exact absurd ht (by simp)
        refine Or.inr (Or.inr (Or.inr
          ⟨[SBOMStep.layerFromFile, SBOMStep.layerDigest], Or.inl ⟨rfl, htl⟩, ?_⟩))
        exact generateSBOMRest_shape env bc digest {} [.layerFromFile, .layerDigest]
      · simp only [ht]
        have htl : bc.tags ≠ [] := by
          intro hnil
          rw [hnil] at ht
          exact absurd ht (by simp)
        rcases h5 : env.parseTag t with m | p
        · simp only [h5]
          exact Or.inr (Or.inr (Or.inl ⟨t, m, rfl, rfl⟩))
        · rcases p with ⟨tagStr, nameStr⟩
          simp only [h5]
          refine Or.inr (Or.inr (Or.inr
            ⟨[SBOMStep.layerFromFile, SBOMStep.layerDigest, SBOMStep.tagParse],
             Or.inr ⟨rfl, htl⟩, ?_⟩))
          exact generateSBOMRest_shape env bc digest ⟨tagStr, nameStr, "", ""⟩
            [.layerFromFile, .layerDigest, .tagParse]

/-- When formats are requested, the trace of stages performed is always
a prefix of the canonical stage order, and, when an error is returned,
the last stage performed is the stage the error identifies (the first
failing stage aborts the pipeline). -/
lemma generateSBOM_trace_shape (env : SBOMEnv) (bc : SBOMContext)
    (hf : bc.sbomFormats ≠ []) :
    (∃ rest, (generateSBOM env bc).1 ++ rest = stepOrder bc) ∧
    (∀ e, (generateSBOM env bc).2 = some e →
      (generateSBOM env bc).1.getLast? = some e.stage) := by
  rcases generateSBOM_outcomes env bc hf with
    ⟨m, h⟩ | ⟨m, h⟩ | ⟨t, m, ht, h⟩ | ⟨pre, hpre, hrest⟩
  · rw [h]
    constructor
    · by_cases htl : bc.tags = []
      · exact ⟨[.layerDigest, .readPackageIndex, .generate], by simp [stepOrder, htl]⟩
      · exact ⟨[.layerDigest, .tagParse, .readPackageIndex, .generate],
          by simp [stepOrder, htl]⟩
    · intro e he
      cases Option.some.inj he
      rfl
  · rw [h]
    constructor
    · by_cases htl : bc.tags = []
      · exact ⟨[.readPackageIndex, .generate], by simp [stepOrder, htl]⟩
      · exact ⟨[.tagParse, .readPackageIndex, .generate], by simp [stepOrder, htl]⟩
    · intro e he
      cases Option.some.inj he
      rfl
  · rw [h]
    have htl : bc.tags ≠ [] := by
      intro hnil
      rw [hnil] at ht
      exact absurd ht (by simp)
    constructor
    · exact ⟨[.readPackageIndex, .generate], by simp [stepOrder, htl]⟩
    · intro e he
      cases Option.some.inj he
      rfl
  · rcases hpre with ⟨hpe, htl⟩ | ⟨hpe, htl⟩ <;> subst hpe <;>
    rcases hrest with ⟨m, h⟩ | ⟨m, h⟩ | h <;> rw [h] <;> constructor
    · exact ⟨[.generate], by simp [stepOrder, htl]⟩
    · intro e he
      cases Option.some.inj he
      rfl
    · exact ⟨[], by simp [stepOrder, htl]⟩
    · intro e he
      cases Option.some.inj he
      rfl
    · exact ⟨[], by simp [stepOrder, htl]⟩
    · intro e he
      exact absurd he (by simp)
    · exact ⟨[.generate], by simp [stepOrder, htl]⟩
    · intro e he
      cases Option.some.inj he
      rfl
    · exact ⟨[], by simp [stepOrder, htl]⟩
    · intro e he
      cases Option.some.inj he
      rfl
    · exact ⟨[], by simp [stepOrder, htl]⟩
    · intro e he
      exact absurd he (by simp)

/-- C7: with zero requested formats GenerateSBOM performs no pipeline
stage at all — in particular no digest computation and no package-index
read — and returns success. -/
theorem generateSBOM_no_formats (env : SBOMEnv) (bc : SBOMContext)
    (h : bc.sbomFormats = []) :
    generateSBOM env bc = ([], none) := by
  unfold generateSBOM
  simp [h]

/-- C7 witness: the empty context requests no formats and the call is a
success with an empty trace. -/
theorem generateSBOM_no_formats_witness :
    generateSBOM envSBOMTrivial {} = ([], none) :=
  generateSBOM_no_formats envSBOMTrivial {} rfl

/-- C8: with at least one requested format, a successful layer read and
digest, and an unparsable first tag, GenerateSBOM fails with the
tag-parse error for that tag after performing exactly the layer read,
digest and tag-parse stages — so before any package-index read;
moreover, in every run with requested formats the trace of stages is a
prefix of the canonical order (layer read, digest, tag parse,
package-index read, generation) and a returned error identifies the
last — first failing — stage. -/
theorem generateSBOM_tag_parse_fails (env : SBOMEnv) (bc : SBOMContext)
    (t m layer digest : String)
    (hf : bc.sbomFormats ≠ [])
    (hl : env.layerFromFile bc.tarballPath = .ok layer)
    (hd : env.layerDigest layer = .ok digest)
    (ht : bc.tags.head? = some t)
    (hp : env.parseTag t = .error m) :
    generateSBOM env bc =
      ([.layerFromFile, .layerDigest, .tagParse],
        some (.tagParseError t m)) ∧
    SBOMStep.readPackageIndex ∉ (generateSBOM env bc).1 ∧
    (∀ env' bc', bc'.sbomFormats ≠ [] →
      (∃ rest, (generateSBOM env' bc').1 ++ rest = stepOrder bc') ∧
      (∀ e, (generateSBOM env' bc').2 = some e →
        (generateSBOM env' bc').1.getLast? = some e.stage)) := by
  have hlen : ¬ bc.sbomFormats.length = 0 := by simpa using hf
  have hmain : generateSBOM env bc =
      ([.layerFromFile, .layerDigest, .tagParse], some (.tagParseError t m)) := by
    unfold generateSBOM
    rw [if_neg hlen]
    simp only [hl, hd, ht, hp]
  refine ⟨hmain, ?_, fun env' bc' hf' => generateSBOM_trace_shape env' bc' hf'⟩
  rw [hmain]
  simp

/-- C8 witness: a context with one format and an unparsable tag fails
with the tag-parse error and never reaches the package-index read. -/
theorem generateSBOM_tag_parse_fails_witness :
    generateSBOM envSBOMTrivial bcBadTag =
      ([.layerFromFile, .layerDigest, .tagParse],
        some (.tagParseError "Not A Tag" "bad tag")) ∧
    SBOMStep.readPackageIndex ∉ (generateSBOM envSBOMTrivial bcBadTag).1 :=
  ⟨(generateSBOM_tag_parse_fails envSBOMTrivial bcBadTag "Not A Tag" "bad tag"
      "layer" "sha256:aaaa" (by decide) rfl rfl rfl rfl).1,
   (generateSBOM_tag_parse_fails envSBOMTrivial bcBadTag "Not A Tag" "bad tag"
      "layer" "sha256:aaaa" (by decide) rfl rfl rfl rfl).2.1⟩

/-! ## C9: the summarizer -/

/-- A configuration whose only non-empty entrypoint field is the shell
fragment. -/
def cfgShellFragmentOnly : ImageConfiguration :=
  { entrypoint := { shellFragment := "echo hi" } }

/-- C9 counterexample: the shell fragment is a field of the entrypoint
block, yet a configuration whose entrypoint has only a non-empty shell
fragment does not get an entrypoint block: the printing condition tests
only type, command and services. -/
theorem summarize_shellFragment_counterexample :
    cfgShellFragmentOnly.entrypoint.shellFragment ≠ "" ∧
    LogLine.entrypointHeader ∉ summarize cfgShellFragmentOnly := by
  decide

/-- C9 (amended): Summarize always prints the contents block; it prints
the entrypoint block if and only if type, command or services is
non-empty (a non-empty shell fragment alone does not trigger the block,
though the fragment is printed inside it); and it prints the accounts
block if and only if run-as, users or groups is non-empty. -/
theorem summarize_blocks (ic : ImageConfiguration) :
    LogLine.contentsHeader ∈ summarize ic ∧
    (LogLine.entrypointHeader ∈ summarize ic ↔
      (ic.entrypoint.type ≠ "" ∨ ic.entrypoint.command ≠ "" ∨
        ic.entrypoint.services ≠ [])) ∧
    (LogLine.accountsHeader ∈ summarize ic ↔
      (ic.accounts.runAs ≠ "" ∨ ic.accounts.users ≠ [] ∨
        ic.accounts.groups ≠ [])) := by
  unfold summarize
  by_cases hE : (ic.entrypoint.type ≠ "" ∨ ic.entrypoint.command ≠ "" ∨
      ic.entrypoint.services.length ≠ 0) <;>
  by_cases hC : ic.cmd ≠ "" <;>
  by_cases hA : (ic.accounts.runAs ≠ "" ∨ ic.accounts.users.length ≠ 0 ∨
      ic.accounts.groups.length ≠ 0) <;>
  simp_all [List.mem_append, List.mem_map, List.length_eq_zero]

end Apko
